import Mathlib

/-!
Verification of the pychat `ChatAPI` client (src/addons/pychat/chatapi.py).

The development embeds the signing engine (`_get_sign`, backed by a full
executable SHA-256 over byte lists), the salt generator (`_gen_salt`), the
constructor defaulting logic (`__init__`), every public API operation as a
state-transition function over an explicit `ChatAPI` record (the server
response and the random salt seed are inputs; the HTTP transport is out of
scope), and the heartbeat loop as a trace function over the sequence of
`connected`-flag values observed at its poll points.

Python specifics modelled faithfully: `app_key` may be `None` (the
`PYCHAT_APP_KEY` environment variable is absent), in which case string
concatenation inside `_get_sign` raises `TypeError`; an operation whose
signing raises returns no request and leaves the state unchanged, modelled
by an `Option` outcome.
-/

/-! ## SHA-256, executable, over lists of byte values (`Nat`s below 256) -/

/-- Truncate to a 32-bit word. -/
def w32 (n : Nat) : Nat := n % 4294967296

/-- 32-bit addition. -/
def add32 (a b : Nat) : Nat := (a + b) % 4294967296

/-- 32-bit bitwise complement (xor with the all-ones mask). -/
def not32 (n : Nat) : Nat := n ^^^ 4294967295

/-- Rotate a 32-bit word right by `k` bits. -/
def rotr32 (k n : Nat) : Nat := w32 ((n >>> k) ||| (n <<< (32 - k)))

/-- SHA-256 big sigma-0: `ROTR 2 ^ ROTR 13 ^ ROTR 22`. -/
def bigSigma0 (x : Nat) : Nat := rotr32 2 x ^^^ rotr32 13 x ^^^ rotr32 22 x

/-- SHA-256 big sigma-1: `ROTR 6 ^ ROTR 11 ^ ROTR 25`. -/
def bigSigma1 (x : Nat) : Nat := rotr32 6 x ^^^ rotr32 11 x ^^^ rotr32 25 x

/-- SHA-256 small sigma-0: `ROTR 7 ^ ROTR 18 ^ SHR 3`. -/
def smallSigma0 (x : Nat) : Nat := rotr32 7 x ^^^ rotr32 18 x ^^^ (x >>> 3)

/-- SHA-256 small sigma-1: `ROTR 17 ^ ROTR 19 ^ SHR 10`. -/
def smallSigma1 (x : Nat) : Nat := rotr32 17 x ^^^ rotr32 19 x ^^^ (x >>> 10)

/-- The 64 SHA-256 round constants (FIPS 180-4, here in decimal). -/
def sha256K : List Nat :=
  [1116352408, 1899447441, 3049323471, 3921009573, 961987163, 1508970993,
   2453635748, 2870763221, 3624381080, 310598401, 607225278, 1426881987,
   1925078388, 2162078206, 2614888103, 3248222580, 3835390401, 4022224774,
   264347078, 604807628, 770255983, 1249150122, 1555081692, 1996064986,
   2554220882, 2821834349, 2952996808, 3210313671, 3336571891, 3584528711,
   113926993, 338241895, 666307205, 773529912, 1294757372, 1396182291,
   1695183700, 1986661051, 2177026350, 2456956037, 2730485921, 2820302411,
   3259730800, 3345764771, 3516065817, 3600352804, 4094571909, 275423344,
   430227734, 506948616, 659060556, 883997877, 958139571, 1322822218,
   1537002063, 1747873779, 1955562222, 2024104815, 2227730452, 2361852424,
   2428436474, 2756734187, 3204031479, 3329325298]

/-- The SHA-256 initial hash value (FIPS 180-4, here in decimal). -/
def sha256H0 : List Nat :=
  [1779033703, 3144134277, 1013904242, 2773480762,
   1359893119, 2600822924, 528734635, 1541459225]

/-- `k` bytes of `n`, big-endian. -/
def bytesBE : Nat → Nat → List Nat
  | 0, _ => []
  | k + 1, n => bytesBE k (n / 256) ++ [n % 256]

/-- SHA-256 padding: append `0x80`, zero bytes up to 56 mod 64, then the
64-bit big-endian bit length. -/
def sha256Pad (msg : List Nat) : List Nat :=
  msg ++ [0x80] ++ List.replicate ((119 - msg.length % 64) % 64) 0
      ++ bytesBE 8 (msg.length * 8)

/-- Group bytes four at a time into big-endian 32-bit words. -/
def toWords : List Nat → List Nat
  | b0 :: b1 :: b2 :: b3 :: rest =>
      (((b0 * 256 + b1) * 256 + b2) * 256 + b3) :: toWords rest
  | _ => []

/-- Append the next word of the SHA-256 message schedule. -/
def schedStep (w : List Nat) : List Nat :=
  let n := w.length
  w ++ [add32 (add32 (w.getD (n - 16) 0) (smallSigma0 (w.getD (n - 15) 0)))
              (add32 (w.getD (n - 7) 0) (smallSigma1 (w.getD (n - 2) 0)))]

/-- Iterate `schedStep` `k` times. -/
def schedExtend : Nat → List Nat → List Nat
  | 0, w => w
  | k + 1, w => schedExtend k (schedStep w)

/-- One SHA-256 compression round on the 8-word working state. -/
def sha256Round (st : List Nat) (kw : Nat × Nat) : List Nat :=
  match st with
  | [a, b, c, d, e, f, g, h] =>
      let temp1 := (h + bigSigma1 e + ((e &&& f) ^^^ (not32 e &&& g)) + kw.1 + kw.2) % 4294967296
      let temp2 := (bigSigma0 a + ((a &&& b) ^^^ (a &&& c) ^^^ (b &&& c))) % 4294967296
      [(temp1 + temp2) % 4294967296, a, b, c, (d + temp1) % 4294967296, e, f, g]
  | other => other

/-- Compress one 64-byte chunk into the running hash. -/
def sha256Compress (h : List Nat) (chunk : List Nat) : List Nat :=
  let ws := schedExtend 48 (toWords chunk)
  let st := (sha256K.zip ws).foldl sha256Round h
  (h.zip st).map (fun p => (p.1 + p.2) % 4294967296)

/-- Fold the compression over `fuel` 64-byte chunks. -/
def sha256Chunks : Nat → List Nat → List Nat → List Nat
  | 0, h, _ => h
  | k + 1, h, msg => sha256Chunks k (sha256Compress h (msg.take 64)) (msg.drop 64)

/-- SHA-256 of a byte list, as the 8 words of the digest. -/
def sha256Words (msg : List Nat) : List Nat :=
  let padded := sha256Pad msg
  sha256Chunks (padded.length / 64) sha256H0 padded

/-- Lowercase hex digit for `n < 16`. -/
def hexDigit (n : Nat) : Char :=
  if n < 10 then Char.ofNat (48 + n) else Char.ofNat (87 + n)

/-- Lowercase 8-hex-digit rendering of a 32-bit word. -/
def wordToHex (n : Nat) : String :=
  String.mk ((List.range 8).map fun i => hexDigit ((n >>> (28 - 4 * i)) &&& 15))

/-- Lowercase hex SHA-256 digest of a byte list — the model of Python's
`hashlib.sha256(bytes).hexdigest()`. -/
def sha256Hex (msg : List Nat) : String :=
  String.join ((sha256Words msg).map wordToHex)

/-! ## UTF-8 encoding of strings, the model of `str.encode()` -/

/-- UTF-8 encoding of one code point. -/
def utf8EncodeCodePoint (c : Nat) : List Nat :=
  if c < 128 then [c]
  else if c < 2048 then [192 + c / 64, 128 + c % 64]
  else if c < 65536 then [224 + c / 4096, 128 + c / 64 % 64, 128 + c % 64]
  else [240 + c / 262144, 128 + c / 4096 % 64, 128 + c / 64 % 64, 128 + c % 64]

/-- UTF-8 bytes of a string — the model of Python's `s.encode()`. -/
def strUtf8 (s : String) : List Nat :=
  s.data.flatMap (fun ch => utf8EncodeCodePoint ch.toNat)

/-- SHA-256 lowercase hex digest of a string's UTF-8 bytes. -/
def sha256HexOfString (s : String) : String :=
  sha256Hex (strUtf8 s)

/-! ## The signature engine: `ChatAPI._get_sign`

In Python, `self.app_key` is `None` when neither the constructor argument nor
the `PYCHAT_APP_KEY` environment variable supplies a key; then
`self.app_id + self.app_key` raises `TypeError`. `none` models the raise. -/

/-- Python `a + b` where `a` is a `str` and `b` is `str | None`: raises
(`none`) when `b` is `None`. -/
def pyStrAdd (a : String) (b : Option String) : Option String :=
  b.map (fun s => a ++ s)

/-- Model of `ChatAPI._get_sign`: start from `app_id + app_key`, append each
argument in order, then SHA-256 the UTF-8 bytes and render lowercase hex.
`none` models the `TypeError` raised when `app_key` is `None`. -/
def get_sign (app_id : String) (app_key : Option String) (args : List String) :
    Option String :=
  (pyStrAdd app_id app_key).map
    (fun base => sha256HexOfString (args.foldl (fun acc i => acc ++ i) base))

/-- The string `_get_sign` hashes (its signing preimage), given that
`app_key` is an actual string. -/
def signPreimage (app_id app_key : String) (args : List String) : String :=
  args.foldl (fun acc i => acc ++ i) (app_id ++ app_key)

/-! ## Salt generation: `ChatAPI._gen_salt` -/

/-- Model of Python's `random.randint(lo, hi)` (inclusive bounds), with the
random source an explicit `seed` input. -/
def randint (lo hi seed : Nat) : Nat := lo + seed % (hi - lo + 1)

/-- Model of `ChatAPI._gen_salt`: `str(random.randint(1, 100000))`. -/
def gen_salt (seed : Nat) : String := toString (randint 1 100000 seed)

/-! ## Data model -/

/-- An entry of `exception_stack`: the `err_no`/`err_info` pair taken from a
failure response. -/
structure ErrorRecord where
  err_no : Int
  err_info : String
deriving DecidableEq, Repr

/-- A server response, as the fields the client reads: `status` (0 means
success), `err_no`/`err_info` (read on failure), `session` (read by a
successful login). Other payload fields are opaque to the client, which
returns the whole mapping unchanged; `extra` stands for them. -/
structure Response where
  status : Int
  err_no : Int := 0
  err_info : String := ""
  session : String := ""
  extra : List (String × String) := []
deriving DecidableEq, Repr

/-- The mutable client state of a `ChatAPI` instance. -/
structure ChatAPI where
  server_ip : String
  port : Int
  app_id : String
  app_key : Option String
  connected : Bool
  username : String
  session : String
  exception_stack : List ErrorRecord
deriving DecidableEq, Repr

/-- Module-level default `SERVER_IP`. -/
def SERVER_IP : String := "124.221.74.246"

/-- Module-level default `PORT`. -/
def PORT : Int := 82

/-- Module-level default `APP_ID`. -/
def APP_ID : String := ""

/-- Python truthiness fallback `x if x else d` for a `str | None` argument:
`None` and `""` are falsy. -/
def orDefaultStr (x : Option String) (d : String) : String :=
  match x with
  | some s => if s = "" then d else s
  | none => d

/-- Python truthiness fallback `x if x else d` for an `int | None` argument:
`None` and `0` are falsy. -/
def orDefaultInt (x : Option Int) (d : Int) : Int :=
  match x with
  | some n => if n = 0 then d else n
  | none => d

/-- Model of `ChatAPI.__init__`. `env_app_key` is the value of
`os.environ.get('PYCHAT_APP_KEY')` (the module constant `APP_KEY`), `none`
when the variable is unset. Each argument falls back by Python truthiness;
for `app_key` the fallback is the environment value, which stays `none` when
both are absent. -/
def mkChatAPI (env_app_key : Option String) (server_ip : Option String)
    (port : Option Int) (app_id : Option String) (app_key : Option String) :
    ChatAPI :=
  { server_ip := orDefaultStr server_ip SERVER_IP
    port := orDefaultInt port PORT
    app_id := orDefaultStr app_id APP_ID
    app_key :=
      match app_key with
      | some k => if k = "" then env_app_key else some k
      | none => env_app_key
    connected := false
    username := ""
    session := ""
    exception_stack := [] }

/-- A JSON value appearing in a request payload: the client only ever sends
strings (every `gid` is passed through `str` first), but the type keeps the
string/number distinction observable. -/
inductive PyVal where
  | str : String → PyVal
  | int : Int → PyVal
deriving DecidableEq, Repr

/-- The request an operation hands to `_send_request`: the endpoint name, the
payload in the dict's insertion order, and (for the theorems) the exact
argument list the operation passed to `_get_sign`. -/
structure Request where
  api_name : String
  payload : List (String × PyVal)
  signedFields : List String
deriving DecidableEq, Repr

/-- What one public operation produces: the post-call state, the request it
sent, the value it returned (`none` both for Python's implicit `None` on
failure and for operations with no `return`), and how many heartbeat threads
it spawned. -/
structure OpResult where
  state : ChatAPI
  request : Request
  result : Option Response
  spawned : Nat := 0
deriving DecidableEq, Repr

/-- Model of `ChatAPI._handle_exception`: append the response's
`err_no`/`err_info` to the exception stack (the warning is presentation
only). -/
def handle_exception (api : ChatAPI) (data : Response) : ChatAPI :=
  { api with exception_stack :=
      api.exception_stack ++ [{ err_no := data.err_no, err_info := data.err_info }] }

/-! ## Public operations

Each operation takes the salt seed and the server's response as explicit
inputs (the random source and the HTTP round-trip are the only external
effects). The outer `Option` is `none` when `_get_sign` raises `TypeError`
(unset `app_key`): then no request is sent and the state is unchanged. -/

/-- Model of `ChatAPI.register_user`. -/
def register_user (api : ChatAPI) (username password description : String)
    (seed : Nat) (resp : Response) : Option OpResult :=
  let salt := gen_salt seed
  let fields := [username, password, description, salt]
  (get_sign api.app_id api.app_key fields).map fun sg =>
    let req : Request :=
      { api_name := "register_user"
        payload := [("app_id", .str api.app_id), ("username", .str username),
                    ("password", .str password), ("description", .str description),
                    ("salt", .str salt), ("sign", .str sg)]
        signedFields := fields }
    if resp.status = 0 then
      { state := api, request := req, result := none }
    else
      { state := handle_exception api resp, request := req, result := none }

/-- Model of `ChatAPI.login_user`. On a success response it sets
`connected`, `username` and `session`, and spawns one heartbeat thread when
`heartbeat_interval > 0`. -/
def login_user (api : ChatAPI) (username password : String)
    (heartbeat_interval : Int) (seed : Nat) (resp : Response) : Option OpResult :=
  let salt := gen_salt seed
  let fields := [username, password, salt]
  (get_sign api.app_id api.app_key fields).map fun sg =>
    let req : Request :=
      { api_name := "login_user"
        payload := [("app_id", .str api.app_id), ("username", .str username),
                    ("password", .str password), ("salt", .str salt),
                    ("sign", .str sg)]
        signedFields := fields }
    if resp.status = 0 then
      { state := { api with connected := true, username := username,
                            session := resp.session }
        request := req
        result := none
        spawned := if heartbeat_interval > 0 then 1 else 0 }
    else
      { state := handle_exception api resp, request := req, result := none }

/-- Model of `ChatAPI.heartbeat` (a single heartbeat request). -/
def heartbeat (api : ChatAPI) (seed : Nat) (resp : Response) : Option OpResult :=
  let salt := gen_salt seed
  let fields := [api.session, salt]
  (get_sign api.app_id api.app_key fields).map fun sg =>
    let req : Request :=
      { api_name := "heartbeat"
        payload := [("app_id", .str api.app_id), ("session", .str api.session),
                    ("salt", .str salt), ("sign", .str sg)]
        signedFields := fields }
    if resp.status = 0 then
      { state := api, request := req, result := none }
    else
      { state := handle_exception api resp, request := req, result := none }

/-- Model of `ChatAPI.get_user_info`. -/
def get_user_info (api : ChatAPI) (username : String) (seed : Nat)
    (resp : Response) : Option OpResult :=
  let salt := gen_salt seed
  let fields := [api.session, username, salt]
  (get_sign api.app_id api.app_key fields).map fun sg =>
    let req : Request :=
      { api_name := "get_user_info"
        payload := [("app_id", .str api.app_id), ("session", .str api.session),
                    ("username", .str username), ("salt", .str salt),
                    ("sign", .str sg)]
        signedFields := fields }
    if resp.status = 0 then
      { state := api, request := req, result := some resp }
    else
      { state := handle_exception api resp, request := req, result := none }

/-- Model of `ChatAPI.change_password`. -/
def change_password (api : ChatAPI) (username new_password : String)
    (seed : Nat) (resp : Response) : Option OpResult :=
  let salt := gen_salt seed
  let fields := [api.session, username, new_password, salt]
  (get_sign api.app_id api.app_key fields).map fun sg =>
    let req : Request :=
      { api_name := "change_password"
        payload := [("app_id", .str api.app_id), ("session", .str api.session),
                    ("username", .str username), ("new_password", .str new_password),
                    ("salt", .str salt), ("sign", .str sg)]
        signedFields := fields }
    if resp.status = 0 then
      { state := api, request := req, result := some resp }
    else
      { state := handle_exception api resp, request := req, result := none }

/-- Model of `ChatAPI.send_direct_message`. -/
def send_direct_message (api : ChatAPI) (recv_user message : String)
    (seed : Nat) (resp : Response) : Option OpResult :=
  let salt := gen_salt seed
  let fields := [api.session, recv_user, message, salt]
  (get_sign api.app_id api.app_key fields).map fun sg =>
    let req : Request :=
      { api_name := "send_direct_message"
        payload := [("app_id", .str api.app_id), ("session", .str api.session),
                    ("recv_user", .str recv_user), ("message", .str message),
                    ("salt", .str salt), ("sign", .str sg)]
        signedFields := fields }
    if resp.status = 0 then
      { state := api, request := req, result := some resp }
    else
      { state := handle_exception api resp, request := req, result := none }

/-- Model of `ChatAPI.get_direct_message`. -/
def get_direct_message (api : ChatAPI) (seed : Nat) (resp : Response) :
    Option OpResult :=
  let salt := gen_salt seed
  let fields := [api.session, salt]
  (get_sign api.app_id api.app_key fields).map fun sg =>
    let req : Request :=
      { api_name := "get_direct_message"
        payload := [("app_id", .str api.app_id), ("session", .str api.session),
                    ("salt", .str salt), ("sign", .str sg)]
        signedFields := fields }
    if resp.status = 0 then
      { state := api, request := req, result := some resp }
    else
      { state := handle_exception api resp, request := req, result := none }

/-- Model of `ChatAPI.send_group_message`: `gid` is rebound to `str(gid)`
before both the payload and the signature. -/
def send_group_message (api : ChatAPI) (gid : Int) (message : String)
    (seed : Nat) (resp : Response) : Option OpResult :=
  let salt := gen_salt seed
  let gidStr := toString gid
  let fields := [api.session, gidStr, message, salt]
  (get_sign api.app_id api.app_key fields).map fun sg =>
    let req : Request :=
      { api_name := "send_group_message"
        payload := [("app_id", .str api.app_id), ("session", .str api.session),
                    ("gid", .str gidStr), ("message", .str message),
                    ("salt", .str salt), ("sign", .str sg)]
        signedFields := fields }
    if resp.status = 0 then
      { state := api, request := req, result := some resp }
    else
      { state := handle_exception api resp, request := req, result := none }

/-- Model of `ChatAPI.get_group_message`. -/
def get_group_message (api : ChatAPI) (gid : Int) (seed : Nat)
    (resp : Response) : Option OpResult :=
  let salt := gen_salt seed
  let gidStr := toString gid
  let fields := [api.session, gidStr, salt]
  (get_sign api.app_id api.app_key fields).map fun sg =>
    let req : Request :=
      { api_name := "get_group_message"
        payload := [("app_id", .str api.app_id), ("session", .str api.session),
                    ("gid", .str gidStr), ("salt", .str salt), ("sign", .str sg)]
        signedFields := fields }
    if resp.status = 0 then
      { state := api, request := req, result := some resp }
    else
      { state := handle_exception api resp, request := req, result := none }

/-- Model of `ChatAPI.get_group_info`. -/
def get_group_info (api : ChatAPI) (gid : Int) (seed : Nat) (resp : Response) :
    Option OpResult :=
  let salt := gen_salt seed
  let gidStr := toString gid
  let fields := [api.session, gidStr, salt]
  (get_sign api.app_id api.app_key fields).map fun sg =>
    let req : Request :=
      { api_name := "get_group_info"
        payload := [("app_id", .str api.app_id), ("session", .str api.session),
                    ("gid", .str gidStr), ("salt", .str salt), ("sign", .str sg)]
        signedFields := fields }
    if resp.status = 0 then
      { state := api, request := req, result := some resp }
    else
      { state := handle_exception api resp, request := req, result := none }

/-- Model of `ChatAPI.register_group`. Note the source posts to the
`get_group_info` endpoint name. -/
def register_group (api : ChatAPI) (group_name description : String)
    (seed : Nat) (resp : Response) : Option OpResult :=
  let salt := gen_salt seed
  let fields := [api.session, group_name, description, salt]
  (get_sign api.app_id api.app_key fields).map fun sg =>
    let req : Request :=
      { api_name := "get_group_info"
        payload := [("app_id", .str api.app_id), ("session", .str api.session),
                    ("group_name", .str group_name), ("description", .str description),
                    ("salt", .str salt), ("sign", .str sg)]
        signedFields := fields }
    if resp.status = 0 then
      { state := api, request := req, result := some resp }
    else
      { state := handle_exception api resp, request := req, result := none }

/-! ## The heartbeat loop: `ChatAPI.start_heartbeat`

`while self.connected: self.heartbeat(); time.sleep(interval)` polls the
shared `connected` flag once per iteration. The loop is embedded as a trace
function over the finite sequence of flag values observed at those polls:
each `true` observation produces one heartbeat send followed by one sleep,
the first `false` observation exits the loop. -/

/-- An observable action of the heartbeat loop. -/
inductive HBEvent where
  | send
  | sleep
deriving DecidableEq, Repr

/-- Model of `ChatAPI.start_heartbeat`: the action trace of the loop, given
the values of `connected` observed at its successive poll points. -/
def start_heartbeat : List Bool → List HBEvent
  | [] => []
  | c :: obs => if c then HBEvent.send :: HBEvent.sleep :: start_heartbeat obs else []


/-- The operation completed a round-trip and passed exactly `fields`, in
order, to `_get_sign`. -/
def sendsSigned (out : Option OpResult) (fields : List String) : Prop :=
  ∃ r, out = some r ∧ r.request.signedFields = fields

/-- The operation completed a round-trip and its request payload carries the
given key/value pair. -/
def payloadHas (out : Option OpResult) (key : String) (v : PyVal) : Prop :=
  ∃ r, out = some r ∧ (key, v) ∈ r.request.payload

/-- The operation handled a failure response as specified: it returned no
usable result, appended exactly the one `ErrorRecord` taken from the
response, and left `connected`, `username` and `session` untouched. -/
def failsCleanly (out : Option OpResult) (api : ChatAPI) (resp : Response) : Prop :=
  ∃ r, out = some r ∧ r.result = none ∧
    r.state.connected = api.connected ∧
    r.state.username = api.username ∧
    r.state.session = api.session ∧
    r.state.exception_stack =
      api.exception_stack ++ [{ err_no := resp.err_no, err_info := resp.err_info }]

/-- A concrete connected client instance, for the witness theorems. -/
def apiW : ChatAPI :=
  { server_ip := "127.0.0.1", port := 5000, app_id := "MZFiLAzmJu",
    app_key := some "vUCiKf167oNUfpdbsxKs", connected := true,
    username := "apitest", session := "tok123", exception_stack := [] }

/-- `apiW` with an empty (but present) application key. -/
def apiEmptyKey : ChatAPI := { apiW with app_key := some "" }

/-- A concrete success response. -/
def respOK : Response := { status := 0, session := "sess-99" }

/-- A concrete failure response. -/
def respErr : Response := { status := 1, err_no := 404, err_info := "no such user" }

/-! ## Helper lemmas -/

/-- The character data of the fold `_get_sign` uses to concatenate its
arguments onto the credential base. -/
theorem foldl_append_data (l : List String) (s : String) :
    (l.foldl (fun acc i => acc ++ i) s).data = s.data ++ (l.map String.data).flatten := by
  induction l generalizing s with
  | nil => simp
  | cons x xs ih =>
      rw [List.foldl_cons, ih, String.data_append, List.map_cons, List.flatten_cons,
        List.append_assoc]

/-- Folding string append from a base equals the base followed by the join. -/
theorem foldl_append_eq_join (l : List String) (s : String) :
    l.foldl (fun acc i => acc ++ i) s = s ++ String.join l := by
  apply String.ext
  rw [foldl_append_data, String.data_append]
  congr 1
  have h := foldl_append_data l ""
  simpa [String.join] using h.symm

/-- Character data of the signing preimage. -/
theorem signPreimage_data (app_id app_key : String) (l : List String) :
    (signPreimage app_id app_key l).data =
      (app_id.data ++ app_key.data) ++ (l.map String.data).flatten := by
  rw [signPreimage, foldl_append_data, String.data_append]

/-- Known-answer test: the empty message. -/
example : sha256HexOfString "" =
    "e3b0c44298fc1c149afbf4c8996fb92427ae41e4649b934ca495991b7852b855" := by
  decide

/-- Known-answer test: the one-chunk NIST vector. -/
example : sha256HexOfString "abc" =
    "ba7816bf8f01cfea414140de5dae2223b00361a396177a9cb410ff61f20015ad" := by
  decide

/-! ## Claim theorems -/

/-- C1: for every appId, appKey and ordered field list, `_get_sign` returns
the lowercase hex SHA-256 digest of the UTF-8 bytes of the delimiter-free
concatenation `appId ++ appKey ++ field[0] ++ ... ++ field[n-1]`. -/
theorem get_sign_is_sha256_of_concat (appId appKey : String) (fields : List String) :
    get_sign appId (some appKey) fields =
      some (sha256HexOfString (appId ++ appKey ++ String.join fields)) := by
  simp only [get_sign, pyStrAdd, Option.map_some']
  rw [foldl_append_eq_join, String.append_assoc]

/-- C9: every call of `_gen_salt` returns the decimal string of an integer
in the inclusive range [1, 100000]. -/
theorem gen_salt_decimal_in_range (seed : Nat) :
    ∃ n : Nat, gen_salt seed = toString n ∧ 1 ≤ n ∧ n ≤ 100000 := by
  refine ⟨randint 1 100000 seed, rfl, ?_, ?_⟩ <;> · unfold randint; omega

/-- C10: a falsy explicit constructor argument (empty string, or 0 for the
port) behaves exactly like an omitted one — each field falls back to the
module default, and an explicitly empty `app_key` is silently replaced by
the environment value. -/
theorem falsy_ctor_args_fall_back (env sip : Option String) (prt : Option Int)
    (aid ak : Option String) :
    mkChatAPI env (some "") prt aid ak = mkChatAPI env none prt aid ak ∧
    mkChatAPI env sip (some 0) aid ak = mkChatAPI env sip none aid ak ∧
    mkChatAPI env sip prt (some "") ak = mkChatAPI env sip prt none ak ∧
    mkChatAPI env sip prt aid (some "") = mkChatAPI env sip prt aid none ∧
    (mkChatAPI env sip prt aid (some "")).app_key = env := by
  refine ⟨?_, ?_, ?_, ?_, ?_⟩ <;> simp [mkChatAPI, orDefaultStr, orDefaultInt]

/-- C6 counterexample: swapping the two distinct fields "a" and "aa" does
not change the signature, because the delimiter-free concatenation is the
same string both ways. -/
theorem swap_fields_sign_collision :
    get_sign "A" (some "K") ["a", "aa"] = get_sign "A" (some "K") ["aa", "a"] ∧
    ("a" : String) ≠ "aa" := by
  exact ⟨rfl, by decide⟩

/-- C6 (amended): changing a single field value, with all other fields and
the credentials fixed, changes the delimiter-free concatenation that
`_get_sign` hashes. -/
theorem single_field_change_preimage (appId appKey a b : String)
    (p q : List String) (hab : a ≠ b) :
    signPreimage appId appKey (p ++ a :: q) ≠ signPreimage appId appKey (p ++ b :: q) := by
  intro hEq
  have hd := congrArg String.data hEq
  rw [signPreimage_data, signPreimage_data, List.map_append, List.map_append,
    List.flatten_append, List.flatten_append, List.map_cons, List.map_cons,
    List.flatten_cons, List.flatten_cons] at hd
  exact hab (String.ext
    (List.append_cancel_right (List.append_cancel_left (List.append_cancel_left hd))))

/-- Witness for the amended C6 theorem at concrete fields. -/
theorem single_field_change_preimage_witness :
    signPreimage "A" "K" (["s"] ++ "x" :: ["salt"]) ≠
      signPreimage "A" "K" (["s"] ++ "y" :: ["salt"]) :=
  single_field_change_preimage "A" "K" "x" "y" ["s"] ["salt"] (by decide)

/-- C7 counterexample: with the application key unset (`None` from both the
argument and the environment), `_get_sign` raises `TypeError` instead of
returning a signature, and `login_user` raises before any request is sent. -/
theorem unset_key_signing_raises :
    get_sign APP_ID none ["user", "pw", gen_salt 0] = none ∧
    login_user (mkChatAPI none none none none none) "user" "pw" 60 0
      { status := 0 } = none ∧
    (mkChatAPI none none none none none).app_key = none :=
  ⟨rfl, rfl, rfl⟩

/-- C7 (amended): with the application key present but empty, `_get_sign`
still computes the deterministic signature over `app_id ++ "" ++ fields`,
and the operation still sends its request carrying that signature. -/
theorem empty_key_still_signs (api : ChatAPI) (u p : String) (hb : Int)
    (seed : Nat) (resp : Response) (hk : api.app_key = some "") :
    get_sign api.app_id api.app_key [u, p, gen_salt seed] =
      some (sha256HexOfString (signPreimage api.app_id "" [u, p, gen_salt seed])) ∧
    ∃ r, login_user api u p hb seed resp = some r ∧
      ("sign", PyVal.str
          (sha256HexOfString (signPreimage api.app_id "" [u, p, gen_salt seed])))
        ∈ r.request.payload := by
  constructor
  · simp [get_sign, pyStrAdd, hk, signPreimage, sha256HexOfString]
  · by_cases h0 : resp.status = 0 <;>
      simp [login_user, get_sign, pyStrAdd, hk, h0, signPreimage, sha256HexOfString]

/-- C8: `register_group` posts to the endpoint named `get_group_info` while
signing exactly (session, group_name, description, salt). -/
theorem register_group_posts_get_group_info (api : ChatAPI)
    (k gname gdesc : String) (seed : Nat) (resp : Response)
    (hk : api.app_key = some k) :
    ∃ r, register_group api gname gdesc seed resp = some r ∧
      r.request.api_name = "get_group_info" ∧
      r.request.signedFields = [api.session, gname, gdesc, gen_salt seed] := by
  by_cases h0 : resp.status = 0 <;>
    simp [register_group, get_sign, pyStrAdd, hk, h0]

/-- C3: on a status-0 response, `login_user` sets `connected`, stores the
username and the server's session token verbatim, and spawns exactly one
heartbeat thread iff the interval is positive (so interval -1 spawns none). -/
theorem login_user_success_updates (api : ChatAPI) (k username password : String)
    (hb : Int) (seed : Nat) (resp : Response)
    (hk : api.app_key = some k) (h0 : resp.status = 0) :
    ∃ r, login_user api username password hb seed resp = some r ∧
      r.state.connected = true ∧
      r.state.username = username ∧
      r.state.session = resp.session ∧
      (r.spawned = 1 ↔ 0 < hb) ∧
      (hb = -1 → r.spawned = 0) := by
  by_cases hhb : 0 < hb
  · simp [login_user, get_sign, pyStrAdd, hk, h0, hhb]
    omega
  · simp [login_user, get_sign, pyStrAdd, hk, h0, hhb]

/-- C5: the heartbeat loop sends exactly one heartbeat per `true`
observation of `connected`: once a `false` is observed, the trace is the one
already produced by the preceding all-`true` observations (nothing further
is sent), its send count is the number of completed cycles, and while the
flag stays `true` each iteration sends then sleeps then repeats. -/
theorem heartbeat_stops_after_disconnect (pre post : List Bool)
    (h : ∀ b ∈ pre, b = true) :
    start_heartbeat (pre ++ false :: post) = start_heartbeat pre ∧
    (start_heartbeat (pre ++ false :: post)).count HBEvent.send = pre.length ∧
    ∀ obs : List Bool, start_heartbeat (true :: obs) =
      HBEvent.send :: HBEvent.sleep :: start_heartbeat obs := by
  refine ⟨?_, ?_, fun obs => by simp [start_heartbeat]⟩
  · induction pre with
    | nil => simp [start_heartbeat]
    | cons c cs ih =>
        have hc : c = true := h c (List.mem_cons_self c cs)
        subst hc
        have ih2 := ih (fun b hb => h b (List.mem_cons_of_mem true hb))
        simp [start_heartbeat, ih2]
  · induction pre with
    | nil => simp [start_heartbeat]
    | cons c cs ih =>
        have hc : c = true := h c (List.mem_cons_self c cs)
        subst hc
        have ih2 := ih (fun b hb => h b (List.mem_cons_of_mem true hb))
        simp [start_heartbeat, List.count_cons, ih2]

/-- C2: every operation passes exactly the canonical field order to
`_get_sign` — session first for authenticated operations, salt always last,
`gid` as its decimal string both in the signed order and in the payload; in
particular `get_user_info` signs (session, username, salt) and
`send_group_message` signs (session, str(gid), message, salt). -/
theorem canonical_signed_field_orders (api : ChatAPI) (k : String)
    (resp : Response) (u p d un npw rv msg gname gdesc : String)
    (gid hb : Int) (seed : Nat) (hk : api.app_key = some k) :
    sendsSigned (register_user api u p d seed resp) [u, p, d, gen_salt seed] ∧
    sendsSigned (login_user api u p hb seed resp) [u, p, gen_salt seed] ∧
    sendsSigned (heartbeat api seed resp) [api.session, gen_salt seed] ∧
    sendsSigned (get_user_info api un seed resp) [api.session, un, gen_salt seed] ∧
    sendsSigned (change_password api un npw seed resp)
      [api.session, un, npw, gen_salt seed] ∧
    sendsSigned (send_direct_message api rv msg seed resp)
      [api.session, rv, msg, gen_salt seed] ∧
    sendsSigned (get_direct_message api seed resp) [api.session, gen_salt seed] ∧
    sendsSigned (send_group_message api gid msg seed resp)
      [api.session, toString gid, msg, gen_salt seed] ∧
    sendsSigned (get_group_message api gid seed resp)
      [api.session, toString gid, gen_salt seed] ∧
    sendsSigned (get_group_info api gid seed resp)
      [api.session, toString gid, gen_salt seed] ∧
    sendsSigned (register_group api gname gdesc seed resp)
      [api.session, gname, gdesc, gen_salt seed] ∧
    payloadHas (send_group_message api gid msg seed resp) "gid"
      (PyVal.str (toString gid)) ∧
    payloadHas (get_group_message api gid seed resp) "gid"
      (PyVal.str (toString gid)) ∧
    payloadHas (get_group_info api gid seed resp) "gid"
      (PyVal.str (toString gid)) := by
  refine ⟨?_, ?_, ?_, ?_, ?_, ?_, ?_, ?_, ?_, ?_, ?_, ?_, ?_, ?_⟩ <;>
    · by_cases h0 : resp.status = 0 <;>
        simp [sendsSigned, payloadHas, register_user, login_user, heartbeat,
          get_user_info, change_password, send_direct_message, get_direct_message,
          send_group_message, get_group_message, get_group_info, register_group,
          get_sign, pyStrAdd, hk, h0]

/-- C4: on any response with nonzero status, every operation returns no
usable result, appends exactly one `ErrorRecord` with the response's
code/message, and leaves `connected`, `username` and `session` unchanged. -/
theorem ops_fail_cleanly (api : ChatAPI) (k : String) (resp : Response)
    (u p d un npw rv msg gname gdesc : String) (gid hb : Int) (seed : Nat)
    (hk : api.app_key = some k) (hs : resp.status ≠ 0) :
    failsCleanly (register_user api u p d seed resp) api resp ∧
    failsCleanly (login_user api u p hb seed resp) api resp ∧
    failsCleanly (heartbeat api seed resp) api resp ∧
    failsCleanly (get_user_info api un seed resp) api resp ∧
    failsCleanly (change_password api un npw seed resp) api resp ∧
    failsCleanly (send_direct_message api rv msg seed resp) api resp ∧
    failsCleanly (get_direct_message api seed resp) api resp ∧
    failsCleanly (send_group_message api gid msg seed resp) api resp ∧
    failsCleanly (get_group_message api gid seed resp) api resp ∧
    failsCleanly (get_group_info api gid seed resp) api resp ∧
    failsCleanly (register_group api gname gdesc seed resp) api resp := by
  refine ⟨?_, ?_, ?_, ?_, ?_, ?_, ?_, ?_, ?_, ?_, ?_⟩ <;>
    simp [failsCleanly, register_user, login_user, heartbeat, get_user_info,
      change_password, send_direct_message, get_direct_message,
      send_group_message, get_group_message, get_group_info, register_group,
      get_sign, pyStrAdd, handle_exception, hk, hs]

/-! ## Witnesses at concrete inputs -/

/-- Witness for C2 at a concrete client, inputs and responses. -/
theorem canonical_signed_field_orders_witness :
    sendsSigned (register_user apiW "u" "p" "d" 7 respOK) ["u", "p", "d", gen_salt 7] ∧
    sendsSigned (login_user apiW "u" "p" 60 7 respOK) ["u", "p", gen_salt 7] ∧
    sendsSigned (heartbeat apiW 7 respOK) [apiW.session, gen_salt 7] ∧
    sendsSigned (get_user_info apiW "alice" 7 respOK) [apiW.session, "alice", gen_salt 7] ∧
    sendsSigned (change_password apiW "alice" "np" 7 respOK)
      [apiW.session, "alice", "np", gen_salt 7] ∧
    sendsSigned (send_direct_message apiW "bob" "hi" 7 respOK)
      [apiW.session, "bob", "hi", gen_salt 7] ∧
    sendsSigned (get_direct_message apiW 7 respOK) [apiW.session, gen_salt 7] ∧
    sendsSigned (send_group_message apiW 42 "hi" 7 respOK)
      [apiW.session, toString (42 : Int), "hi", gen_salt 7] ∧
    sendsSigned (get_group_message apiW 42 7 respOK)
      [apiW.session, toString (42 : Int), gen_salt 7] ∧
    sendsSigned (get_group_info apiW 42 7 respOK)
      [apiW.session, toString (42 : Int), gen_salt 7] ∧
    sendsSigned (register_group apiW "g" "gd" 7 respOK)
      [apiW.session, "g", "gd", gen_salt 7] ∧
    payloadHas (send_group_message apiW 42 "hi" 7 respOK) "gid"
      (PyVal.str (toString (42 : Int))) ∧
    payloadHas (get_group_message apiW 42 7 respOK) "gid"
      (PyVal.str (toString (42 : Int))) ∧
    payloadHas (get_group_info apiW 42 7 respOK) "gid"
      (PyVal.str (toString (42 : Int))) :=
  canonical_signed_field_orders apiW "vUCiKf167oNUfpdbsxKs" respOK
    "u" "p" "d" "alice" "np" "bob" "hi" "g" "gd" 42 60 7 rfl

/-- Witness for C3: a concrete successful login with interval 60. -/
theorem login_user_success_updates_witness :
    ∃ r, login_user apiW "alice" "pw" 60 7 respOK = some r ∧
      r.state.connected = true ∧
      r.state.username = "alice" ∧
      r.state.session = respOK.session ∧
      (r.spawned = 1 ↔ (0 : Int) < 60) ∧
      ((60 : Int) = -1 → r.spawned = 0) :=
  login_user_success_updates apiW "vUCiKf167oNUfpdbsxKs" "alice" "pw" 60 7 respOK
    rfl rfl

/-- Witness for C4 at a concrete failure response. -/
theorem ops_fail_cleanly_witness :
    failsCleanly (register_user apiW "u" "p" "d" 7 respErr) apiW respErr ∧
    failsCleanly (login_user apiW "u" "p" 60 7 respErr) apiW respErr ∧
    failsCleanly (heartbeat apiW 7 respErr) apiW respErr ∧
    failsCleanly (get_user_info apiW "alice" 7 respErr) apiW respErr ∧
    failsCleanly (change_password apiW "alice" "np" 7 respErr) apiW respErr ∧
    failsCleanly (send_direct_message apiW "bob" "hi" 7 respErr) apiW respErr ∧
    failsCleanly (get_direct_message apiW 7 respErr) apiW respErr ∧
    failsCleanly (send_group_message apiW 42 "hi" 7 respErr) apiW respErr ∧
    failsCleanly (get_group_message apiW 42 7 respErr) apiW respErr ∧
    failsCleanly (get_group_info apiW 42 7 respErr) apiW respErr ∧
    failsCleanly (register_group apiW "g" "gd" 7 respErr) apiW respErr :=
  ops_fail_cleanly apiW "vUCiKf167oNUfpdbsxKs" respErr
    "u" "p" "d" "alice" "np" "bob" "hi" "g" "gd" 42 60 7 rfl (by decide)

/-- Witness for C5: two completed cycles, then the flag observed `false`. -/
theorem heartbeat_stops_after_disconnect_witness :
    start_heartbeat ([true, true] ++ false :: [true]) = start_heartbeat [true, true] ∧
    (start_heartbeat ([true, true] ++ false :: [true])).count HBEvent.send =
      ([true, true] : List Bool).length ∧
    ∀ obs : List Bool, start_heartbeat (true :: obs) =
      HBEvent.send :: HBEvent.sleep :: start_heartbeat obs :=
  heartbeat_stops_after_disconnect [true, true] [true] (by decide)

/-- Witness for the amended C7 theorem: a concrete client whose key is the
empty string still signs and still sends its login request. -/
theorem empty_key_still_signs_witness :
    get_sign apiEmptyKey.app_id apiEmptyKey.app_key ["u", "p", gen_salt 3] =
      some (sha256HexOfString (signPreimage apiEmptyKey.app_id "" ["u", "p", gen_salt 3])) ∧
    ∃ r, login_user apiEmptyKey "u" "p" 60 3 respOK = some r ∧
      ("sign", PyVal.str
          (sha256HexOfString (signPreimage apiEmptyKey.app_id "" ["u", "p", gen_salt 3])))
        ∈ r.request.payload :=
  empty_key_still_signs apiEmptyKey "u" "p" 60 3 respOK rfl

/-- Witness for C8 at a concrete client and group. -/
theorem register_group_posts_get_group_info_witness :
    ∃ r, register_group apiW "mygroup" "about" 3 respOK = some r ∧
      r.request.api_name = "get_group_info" ∧
      r.request.signedFields = [apiW.session, "mygroup", "about", gen_salt 3] :=
  register_group_posts_get_group_info apiW "vUCiKf167oNUfpdbsxKs" "mygroup"
    "about" 3 respOK rfl
